import Mathlib

/-! Frontend proxy, model transplant and the Python module version gate.

A shallow embedding of

* `src/frontends/common/src/frontend.cpp` (the delegating `ov::frontend::FrontEnd`
  proxy and `FrontEnd::create_copy`), and
* the version check at the top of `PYBIND11_MODULE(pyopenvino, m)` in
  `src/bindings/python/src/pyopenvino/pyopenvino.cpp`.

Objects that the C++ code reaches through `std::shared_ptr` are modelled by
addresses into explicit stores that are threaded through every call, so that
sharing and freshness of objects are visible in the statements.
-/

namespace ov

/-! ## Data model -/

/-- Identity of a graph node held through a shared pointer
(an element of `ResultVector`, `SinkVector` or `ParameterVector`). -/
abbrev NodeRef := Nat

/-- The contents of a node object (its name, shapes, attributes), which the proxy never
inspects and which is therefore kept as one value. -/
abbrev NodeState := String

/-- Identity of a variable declaration held through a shared pointer. -/
abbrev VariableRef := Nat

/-- A value of `ov::Any`; the proxy never looks inside one. -/
abbrev Any := String

/-- The runtime metadata map `std::map<std::string, ov::Any>`, kept as its list of entries. -/
abbrev RTMap := List (String × Any)

/-- Identity of the object behind a `std::shared_ptr<void>` (the plugin handle). -/
abbrev Handle := Nat

/-- Identity of an `ov::Extension` object held through a shared pointer. -/
abbrev Extension := Nat

/-- Address of an `ov::Model` in the model store. An address that is not below the
size of the store designates no object (this covers the null pointer). -/
abbrev ModelPtr := Nat

/-- Address of the concrete input model owned by an implementation. The proxy only
passes such addresses on and never dereferences them. -/
abbrev InputModelPtr := Nat

/-- Modelled from the spec: the class `ov::Model`, whose declaration is not part of the
sources at hand. Its attributes are the ones the data model lists for a Graph: ordered
result, sink and parameter nodes, the variable declarations, the friendly name, the
runtime metadata map and the retained plugin handle (absent until one is attached). -/
structure Model where
  m_results : List NodeRef
  m_sinks : List NodeRef
  m_parameters : List NodeRef
  m_variables : List VariableRef
  m_name : String
  m_rt_info : RTMap
  m_shared_object : Option Handle
  deriving DecidableEq, Repr

/-- Modelled from the spec: the five-argument constructor of `ov::Model` ("construct a new
Graph from the source's result nodes, sink nodes, parameter nodes, variable declarations,
and friendly name"). The metadata map starts empty and no plugin handle is retained. -/
def Model.make (results sinks parameters : List NodeRef) (vars : List VariableRef)
    (name : String) : Model :=
  { m_results := results, m_sinks := sinks, m_parameters := parameters,
    m_variables := vars, m_name := name, m_rt_info := [], m_shared_object := none }

/-- Modelled from the spec: accessor of the result nodes of `ov::Model`. -/
def Model.get_results (m : Model) : List NodeRef := m.m_results

/-- Modelled from the spec: accessor of the sink nodes of `ov::Model`. -/
def Model.get_sinks (m : Model) : List NodeRef := m.m_sinks

/-- Modelled from the spec: accessor of the parameter nodes of `ov::Model`. -/
def Model.get_parameters (m : Model) : List NodeRef := m.m_parameters

/-- Modelled from the spec: accessor of the variable declarations of `ov::Model`. -/
def Model.get_variables (m : Model) : List VariableRef := m.m_variables

/-- Modelled from the spec: accessor of the friendly name of `ov::Model`. -/
def Model.get_friendly_name (m : Model) : String := m.m_name

/-- Modelled from the spec: accessor of the runtime metadata map of `ov::Model`. -/
def Model.get_rt_info (m : Model) : RTMap := m.m_rt_info

/-- Modelled from the spec: the error kinds of section 7 (the header
`openvino/frontend/exception.hpp` is not part of the sources at hand). -/
inductive Failure where
  | NotImplemented (operation : String)
  | InitializationFailure (what : String)
  | GeneralFailure (what : String)
  | OpConversionFailure (node : String)
  | OpValidationFailure (node : String)
  deriving DecidableEq, Repr

/-- How a call ends: it returns a value, it throws, or it dereferences a pointer that
designates no object (for which C++ defines no behaviour). -/
inductive Outcome (α : Type) where
  | value (a : α)
  | raised (e : Failure)
  | undefined
  deriving DecidableEq, Repr

/-- Everything a call into the plugin can read or change: the private state of the
plugin's implementation object, the store of `ov::Model` objects, and the store of node
objects that the shared pointers in the node sequences of a model designate. -/
structure World (σ : Type) where
  impl : σ
  models : List Model
  nodes : NodeRef → NodeState

/-- Modelled from the spec: the shared state behind the plugin handles (the class
`FrontEndSharedData` is not part of the sources at hand): for every handle the extensions
recorded against it, in the order they were added. An implementation has no access to it;
"the registry's only job is to remember what was added to a proxy". -/
abbrev SharedData := Handle → List Extension

/-- A finished call: its outcome and the world it leaves behind. -/
abbrev Run (σ α : Type) := Outcome α × World σ

/-- Sequencing of two calls: the second runs only when the first returned a value. -/
def Run.andThen {σ α β : Type} (r : Run σ α) (k : α → World σ → Run σ β) : Run σ β :=
  match r with
  | (Outcome.value a, w) => k a w
  | (Outcome.raised e, w) => (Outcome.raised e, w)
  | (Outcome.undefined, w) => (Outcome.undefined, w)

/-- The virtual interface of a concrete frontend, as the proxy calls it through
`m_actual`. Every capability may read and change the world and may throw. -/
structure Implementation (σ : Type) where
  supported_impl : List Any → World σ → Run σ Bool
  load_impl : List Any → World σ → Run σ InputModelPtr
  convert : InputModelPtr → World σ → Run σ ModelPtr
  convert_model : ModelPtr → World σ → Run σ Unit
  convert_partially : InputModelPtr → World σ → Run σ ModelPtr
  decode : InputModelPtr → World σ → Run σ ModelPtr
  normalize : ModelPtr → World σ → Run σ Unit
  add_extension : Extension → World σ → Run σ Unit
  get_name : World σ → Run σ String

/-- Modelled from the spec: the members of the proxy class `ov::frontend::FrontEnd`
(its header is not part of the sources at hand): an optional implementation and the
plugin handle the proxy owns. -/
structure FrontEnd (σ : Type) where
  m_actual : Option (Implementation σ)
  m_shared_object : Handle

/-- Modelled from the spec: the members of the proxy class `ov::frontend::InputModel`:
the concrete input model and a copy of the producing proxy's plugin handle. -/
structure InputModel where
  m_shared_object : Handle
  m_actual : InputModelPtr
  deriving DecidableEq, Repr

/-! ## `frontend.cpp` -/

/-- Modelled from the spec: the macro `FRONT_END_CHECK_IMPLEMENTED(COND, NAME)`, which is
not part of the sources at hand. When `COND` is null the call fails with `NotImplemented`
naming the operation `NAME`; otherwise the rest of the function body runs. -/
def FRONT_END_CHECK_IMPLEMENTED {σ α β : Type} (cond : Option β) (name : String)
    (w : World σ) (rest : β → Run σ α) : Run σ α :=
  match cond with
  | none => (Outcome.raised (Failure.NotImplemented name), w)
  | some actual => rest actual

/-- Modelled from the spec: `add_extension_to_shared_data`, which is not part of the
sources at hand: it "records the extension against the proxy's shared state", here by
appending it to the list kept for the handle. -/
def add_extension_to_shared_data (obj : Handle) (ext : Extension) (shared : SharedData) :
    SharedData :=
  fun h => if h = obj then shared h ++ [ext] else shared h

/-- The function `FrontEnd::create_copy`: reads the object behind `ov_model`, allocates a
new model from its results, sinks, parameters, variables and friendly name, stores the
handle in it and assigns the metadata map. -/
def FrontEnd.create_copy {σ : Type} (ov_model : ModelPtr) (shared_object : Handle)
    (w : World σ) : Run σ ModelPtr :=
  match w.models[ov_model]? with
  | none => (Outcome.undefined, w)
  | some src =>
    let copy := Model.make src.get_results src.get_sinks src.get_parameters
      src.get_variables src.get_friendly_name
    let copy := { copy with m_shared_object := some shared_object }
    let copy := { copy with m_rt_info := src.get_rt_info }
    (Outcome.value w.models.length, { w with models := w.models ++ [copy] })

/-- The function `FrontEnd::supported_impl`. -/
def FrontEnd.supported_impl {σ : Type} (self : FrontEnd σ) (variants : List Any)
    (w : World σ) : Run σ Bool :=
  match self.m_actual with
  | some m_actual => m_actual.supported_impl variants w
  | none => (Outcome.value false, w)

/-- The function `FrontEnd::load_impl`. -/
def FrontEnd.load_impl {σ : Type} (self : FrontEnd σ) (variants : List Any)
    (w : World σ) : Run σ InputModel :=
  FRONT_END_CHECK_IMPLEMENTED self.m_actual "load_impl" w fun m_actual =>
    (m_actual.load_impl variants w).andThen fun actual w1 =>
      (Outcome.value { m_shared_object := self.m_shared_object, m_actual := actual }, w1)

/-- The function `FrontEnd::convert(const InputModel::Ptr&)`. -/
def FrontEnd.convert {σ : Type} (self : FrontEnd σ) (model : InputModel)
    (w : World σ) : Run σ ModelPtr :=
  FRONT_END_CHECK_IMPLEMENTED self.m_actual "convert" w fun m_actual =>
    (m_actual.convert model.m_actual w).andThen fun r w1 =>
      FrontEnd.create_copy r self.m_shared_object w1

/-- The function `FrontEnd::convert(const std::shared_ptr<Model>&)`, which converts in place. -/
def FrontEnd.convert_model {σ : Type} (self : FrontEnd σ) (model : ModelPtr)
    (w : World σ) : Run σ Unit :=
  FRONT_END_CHECK_IMPLEMENTED self.m_actual "convert" w fun m_actual =>
    m_actual.convert_model model w

/-- The function `FrontEnd::convert_partially`. -/
def FrontEnd.convert_partially {σ : Type} (self : FrontEnd σ) (model : InputModel)
    (w : World σ) : Run σ ModelPtr :=
  FRONT_END_CHECK_IMPLEMENTED self.m_actual "convert_partially" w fun m_actual =>
    (m_actual.convert_partially model.m_actual w).andThen fun r w1 =>
      FrontEnd.create_copy r self.m_shared_object w1

/-- The function `FrontEnd::decode`. -/
def FrontEnd.decode {σ : Type} (self : FrontEnd σ) (model : InputModel)
    (w : World σ) : Run σ ModelPtr :=
  FRONT_END_CHECK_IMPLEMENTED self.m_actual "decode" w fun m_actual =>
    (m_actual.decode model.m_actual w).andThen fun r w1 =>
      FrontEnd.create_copy r self.m_shared_object w1

/-- The function `FrontEnd::normalize`. -/
def FrontEnd.normalize {σ : Type} (self : FrontEnd σ) (model : ModelPtr)
    (w : World σ) : Run σ Unit :=
  FRONT_END_CHECK_IMPLEMENTED self.m_actual "normalize" w fun m_actual =>
    m_actual.normalize model w

/-- The function `FrontEnd::add_extension(const std::shared_ptr<ov::Extension>&)`. The
result is the finished call together with the shared data it leaves behind. -/
def FrontEnd.add_extension {σ : Type} (self : FrontEnd σ) (extension : Extension)
    (shared : SharedData) (w : World σ) : Run σ Unit × SharedData :=
  match self.m_actual with
  | some m_actual =>
    let shared1 := add_extension_to_shared_data self.m_shared_object extension shared
    (m_actual.add_extension extension w, shared1)
  | none => ((Outcome.value (), w), shared)

/-- The function `FrontEnd::get_name`. -/
def FrontEnd.get_name {σ : Type} (self : FrontEnd σ) (w : World σ) : Run σ String :=
  match self.m_actual with
  | none => (Outcome.value "", w)
  | some m_actual => m_actual.get_name w

/-! ## Mutation and observation of stored graphs -/

/-- In-place mutation of the `ov::Model` object at address `p`: the contents of that one
cell of the model store are replaced by the result of `change`; an address that
designates no object is left alone. -/
def World.mutate_model {σ : Type} (w : World σ) (p : ModelPtr) (change : Model → Model) :
    World σ :=
  match w.models[p]? with
  | some m => { w with models := w.models.set p (change m) }
  | none => w

/-- In-place mutation of the node object that `n` designates, as done through any shared
pointer to it. -/
def World.mutate_node {σ : Type} (w : World σ) (n : NodeRef)
    (change : NodeState → NodeState) : World σ :=
  { w with nodes := fun k => if k = n then change (w.nodes n) else w.nodes k }

/-- What a caller can read through a pointer to a graph: the attributes of the model
object and the contents of the nodes its three node sequences designate. -/
structure Observation where
  model : Model
  results : List NodeState
  sinks : List NodeState
  parameters : List NodeState
  deriving DecidableEq, Repr

/-- Reading a graph through the pointer `p`. -/
def World.observe {σ : Type} (w : World σ) (p : ModelPtr) : Option Observation :=
  (w.models[p]?).map fun m =>
    { model := m
      results := m.get_results.map w.nodes
      sinks := m.get_sinks.map w.nodes
      parameters := m.get_parameters.map w.nodes }

/-- Modelled from the spec: `ov::Model::set_friendly_name`, the mutation that changes the
friendly name of a graph. -/
def Model.set_friendly_name (name : String) (m : Model) : Model :=
  { m with m_name := name }

/-- The order `std::less<std::string>` in which a `std::map` keeps its keys:
lexicographic by character code, a proper initial part coming first. -/
def key_less : List Char → List Char → Bool
  | _, [] => false
  | [], _ :: _ => true
  | a :: s, b :: t =>
    if a.toNat < b.toNat then true
    else if b.toNat < a.toNat then false
    else key_less s t

/-- Assignment `map[key] = value` on the entries of a `std::map`, which are kept in the
order of their keys: an existing entry for the key is changed, otherwise a new entry is
inserted at the place its key belongs. -/
def RTMap.assign (key : String) (value : Any) : RTMap → RTMap
  | [] => [(key, value)]
  | (k, v) :: rest =>
    if key_less key.data k.data then (key, value) :: (k, v) :: rest
    else if k = key then (k, value) :: rest
    else (k, v) :: RTMap.assign key value rest

/-- The mutation `model->get_rt_info()[key] = value`. -/
def Model.assign_rt_info (key : String) (value : Any) (m : Model) : Model :=
  { m with m_rt_info := RTMap.assign key value m.m_rt_info }

/-! ## Sample inputs -/

/-- A sample graph: one result, one sink, two parameters, one variable and two metadata
entries, with no plugin handle attached yet. -/
def sampleModel : Model :=
  { m_results := [10], m_sinks := [20], m_parameters := [1, 2], m_variables := [30],
    m_name := "net", m_rt_info := [("framework", "onnx"), ("version", "7")],
    m_shared_object := none }

/-- A sample world whose model store holds `sampleModel` at address 0 and whose node
objects all read `f32[1,3]`. -/
def sampleWorld : World Nat :=
  { impl := 0, models := [sampleModel], nodes := fun _ => "f32[1,3]" }

/-- The sample world after two transplants, with handle 9, of the graph at address 0; the
copies sit at addresses 1 and 2. -/
def twiceCopiedWorld : World Nat :=
  (FrontEnd.create_copy 0 9 (FrontEnd.create_copy 0 9 sampleWorld).2).2

/-- Shared data in which extension 4 has been recorded against handle 5 and nothing
against any other handle. -/
def sampleShared : SharedData :=
  fun h => if h = 5 then [4] else []

/-- A sample implementation. It supports loading and the three conversions (each
conversion allocates a new graph and counts the call in its private state) and counts the
extensions it is given. -/
def sampleImplementation : Implementation Nat :=
  { supported_impl := fun variants w => (Outcome.value (variants != []), w)
    load_impl := fun variants w => (Outcome.value variants.length, w)
    convert := fun _ w =>
      (Outcome.value w.models.length,
        { w with impl := w.impl + 1, models := w.models ++ [sampleModel] })
    convert_model := fun _ w => (Outcome.value (), w)
    convert_partially := fun _ w =>
      (Outcome.value w.models.length,
        { w with impl := w.impl + 1, models := w.models ++ [sampleModel] })
    decode := fun _ w =>
      (Outcome.value w.models.length,
        { w with impl := w.impl + 1, models := w.models ++ [sampleModel] })
    normalize := fun _ w => (Outcome.value (), w)
    add_extension := fun _ w => (Outcome.value (), { w with impl := w.impl + 100 })
    get_name := fun w => (Outcome.value "onnx", w) }

/-- A second sample implementation, which lacks `decode` and `normalize`, fails full
conversion with a general error, fails `convert_partially` at a node after having
allocated a graph of its own, and rejects every extension. -/
def failingImplementation : Implementation Nat :=
  { sampleImplementation with
    convert := fun _ w => (Outcome.raised (Failure.GeneralFailure "bad file"), w)
    convert_model := fun _ w => (Outcome.raised (Failure.NotImplemented "convert"), w)
    convert_partially := fun _ w =>
      (Outcome.raised (Failure.OpConversionFailure "Conv_3"),
        { w with models := w.models ++ [sampleModel] })
    decode := fun _ w => (Outcome.raised (Failure.NotImplemented "decode"), w)
    normalize := fun _ w => (Outcome.raised (Failure.NotImplemented "normalize"), w)
    add_extension := fun _ w => (Outcome.raised (Failure.GeneralFailure "unsupported"), w) }

/-- A proxy with the second sample implementation attached and plugin handle 5. -/
def failingProxy : FrontEnd Nat :=
  { m_actual := some failingImplementation, m_shared_object := 5 }

/-- A proxy with the sample implementation attached and plugin handle 5. -/
def attachedProxy : FrontEnd Nat :=
  { m_actual := some sampleImplementation, m_shared_object := 5 }

/-- A proxy with no implementation attached. -/
def emptyProxy : FrontEnd Nat :=
  { m_actual := none, m_shared_object := 5 }

/-- A sample input model proxy. -/
def sampleInputModel : InputModel :=
  { m_shared_object := 5, m_actual := 3 }

end ov

namespace pyopenvino

/-! ## `pyopenvino.cpp`: the version check of the module initialiser -/

/-- The standard library call `s.find(str)`: the lowest position at which `str` occurs in
`s`, or `none` (for `std::string::npos`) when it occurs nowhere. -/
def find (s str : List Char) : Option Nat :=
  if str.isPrefixOf s then some 0
  else
    match s with
    | [] => none
    | _ :: rest => (find rest str).map (· + 1)

/-- The function `get_version`: the build number of the runtime's version record, which
is an input here. -/
def get_version (buildNumber : String) : String := buildNumber

/-- The local `versions_compatible` of the module initialiser, computed from the binding's
compile-time constant `CI_BUILD_NUMBER` and the runtime's build number. -/
def versions_compatible (CI_BUILD_NUMBER buildNumber : String) : Bool :=
  let pyopenvino_version := CI_BUILD_NUMBER
  let runtime_version := get_version buildNumber
  let is_custom_pyopenvino_version :=
    pyopenvino_version.isEmpty || find pyopenvino_version.data "custom_".data == some 0
  let is_custom_runtime_version :=
    runtime_version.isEmpty || find runtime_version.data "custom_".data == some 0
  is_custom_pyopenvino_version || is_custom_runtime_version ||
    pyopenvino_version == runtime_version

/-- The check `OPENVINO_ASSERT(cond, message...)` (the definition of this assertion is not
part of the sources at hand and is taken as what its use says): nothing happens when the
condition holds, and the call throws with the message when it does not. -/
def OPENVINO_ASSERT (cond : Bool) (message : String) : Except String Unit :=
  if cond then Except.ok () else Except.error message

/-- The start of `PYBIND11_MODULE(pyopenvino, m)`, up to and including the version
assertion; `Except.ok` means that initialisation goes on to register the module's
contents, `Except.error` that it fails. -/
def PYBIND11_MODULE_pyopenvino (CI_BUILD_NUMBER buildNumber : String) : Except String Unit :=
  let pyopenvino_version := CI_BUILD_NUMBER
  let runtime_version := get_version buildNumber
  OPENVINO_ASSERT (versions_compatible CI_BUILD_NUMBER buildNumber)
    ("OpenVINO Python version (" ++ pyopenvino_version ++
      ") mismatches with OpenVINO Runtime library version (" ++ runtime_version ++
      "). It can happen if you have 2 or more different versions of OpenVINO installed in system. " ++
      "Please ensure that environment variables (e.g. PATH, PYTHONPATH) are set correctly so that " ++
      "OpenVINO Runtime and Python libraries point to same release.")

end pyopenvino

namespace ov

/-! ## Model transplant -/

/-- What `create_copy` does on a valid source pointer, written out: the new object sits
at the first free address and the rest of the world is untouched. -/
theorem create_copy_eq {σ : Type} (w : World σ) (g : ModelPtr) (h : Handle) (src : Model)
    (hg : w.models[g]? = some src) :
    FrontEnd.create_copy g h w =
      (Outcome.value w.models.length,
        { w with models := w.models ++
            [{ m_results := src.m_results, m_sinks := src.m_sinks,
               m_parameters := src.m_parameters, m_variables := src.m_variables,
               m_name := src.m_name, m_rt_info := src.m_rt_info,
               m_shared_object := some h }] }) := by
  simp [FrontEnd.create_copy, hg, Model.make, Model.get_results, Model.get_sinks,
    Model.get_parameters, Model.get_variables, Model.get_friendly_name, Model.get_rt_info]

/-- A valid address is below the size of the store. -/
theorem lt_of_lookup {l : List Model} {g : Nat} {src : Model} (hg : l[g]? = some src) :
    g < l.length := by
  by_contra hlt
  have := List.getElem?_eq_none (Nat.le_of_not_lt hlt)
  rw [this] at hg
  cases hg

/-- Appending to the store keeps what valid addresses designate. -/
theorem lookup_append_left {l : List Model} {g : Nat} {src : Model} (hg : l[g]? = some src)
    (extra : List Model) : (l ++ extra)[g]? = some src := by
  rw [List.getElem?_append_left (lt_of_lookup hg)]
  exact hg

/-- The first free address of the store designates the appended object. -/
theorem lookup_append_new (l : List Model) (m : Model) : (l ++ [m])[l.length]? = some m := by
  simp

/-- C1. Model transplant: for every world, every valid source graph `g` (with contents
`src`) and every plugin handle `h`, `create_copy` returns a graph whose result, sink and
parameter sequences, variables and friendly name are those of `g`, whose metadata map
equals the one of `g` entry for entry, and which retains exactly `h`; the source itself
is left as it was. -/
theorem C1_create_copy_preserves {σ : Type} (w : World σ) (g : ModelPtr) (h : Handle)
    (src : Model) (hg : w.models[g]? = some src) :
    ∃ (p : ModelPtr) (copy : Model),
      (FrontEnd.create_copy g h w).1 = Outcome.value p ∧
      (FrontEnd.create_copy g h w).2.models[p]? = some copy ∧
      copy.get_results = src.get_results ∧
      copy.get_sinks = src.get_sinks ∧
      copy.get_parameters = src.get_parameters ∧
      copy.get_variables = src.get_variables ∧
      copy.get_friendly_name = src.get_friendly_name ∧
      copy.get_rt_info = src.get_rt_info ∧
      copy.get_rt_info.map Prod.fst = src.get_rt_info.map Prod.fst ∧
      copy.m_shared_object = some h ∧
      (FrontEnd.create_copy g h w).2.models[g]? = some src := by
  rw [create_copy_eq w g h src hg]
  refine ⟨w.models.length, _, rfl, lookup_append_new _ _, rfl, rfl, rfl, rfl, rfl, rfl, rfl,
    rfl, ?_⟩
  exact lookup_append_left hg _

/-- C1 at the sample world: copying the graph at address 0 with handle 9. -/
theorem C1_create_copy_preserves_witness :
    sampleWorld.models[0]? = some sampleModel ∧
    ∃ (p : ModelPtr) (copy : Model),
      (FrontEnd.create_copy 0 9 sampleWorld).1 = Outcome.value p ∧
      (FrontEnd.create_copy 0 9 sampleWorld).2.models[p]? = some copy ∧
      copy.get_results = sampleModel.get_results ∧
      copy.get_sinks = sampleModel.get_sinks ∧
      copy.get_parameters = sampleModel.get_parameters ∧
      copy.get_variables = sampleModel.get_variables ∧
      copy.get_friendly_name = sampleModel.get_friendly_name ∧
      copy.get_rt_info = sampleModel.get_rt_info ∧
      copy.get_rt_info.map Prod.fst = sampleModel.get_rt_info.map Prod.fst ∧
      copy.m_shared_object = some 9 ∧
      (FrontEnd.create_copy 0 9 sampleWorld).2.models[0]? = some sampleModel :=
  ⟨rfl, C1_create_copy_preserves sampleWorld 0 9 sampleModel rfl⟩

/-! ## Delegation -/

/-- With an implementation attached the presence check lets the body run. -/
theorem check_implemented_some {σ α β : Type} (a : β) (name : String) (w : World σ)
    (rest : β → Run σ α) : FRONT_END_CHECK_IMPLEMENTED (some a) name w rest = rest a := rfl

/-- Without an implementation the presence check throws and leaves the world alone. -/
theorem check_implemented_none {σ α β : Type} (name : String) (w : World σ)
    (rest : β → Run σ α) :
    FRONT_END_CHECK_IMPLEMENTED (none : Option β) name w rest =
      (Outcome.raised (Failure.NotImplemented name), w) := rfl

/-- `create_copy` itself never throws. -/
theorem create_copy_not_raised {σ : Type} (g : ModelPtr) (h : Handle) (w : World σ)
    (e : Failure) : (FrontEnd.create_copy g h w).1 ≠ Outcome.raised e := by
  unfold FrontEnd.create_copy
  cases w.models[g]? <;> simp

/-- When `create_copy` returns, its source pointer was valid. -/
theorem create_copy_value_inv {σ : Type} (g : ModelPtr) (h : Handle) (w w2 : World σ)
    (p : ModelPtr) (hv : FrontEnd.create_copy g h w = (Outcome.value p, w2)) :
    ∃ src, w.models[g]? = some src := by
  unfold FrontEnd.create_copy at hv
  cases hsrc : w.models[g]? with
  | none => rw [hsrc] at hv; simp at hv
  | some src => exact ⟨src, rfl⟩

/-- A delegated conversion followed by `create_copy` throws only what the delegated call
threw. -/
theorem andThen_create_copy_raised {σ : Type} (r : Run σ ModelPtr) (h : Handle) (e : Failure)
    (hr : (r.andThen fun raw w1 => FrontEnd.create_copy raw h w1).1 = Outcome.raised e) :
    r.1 = Outcome.raised e := by
  rcases r with ⟨o, w⟩
  cases o with
  | value a => exact absurd hr (create_copy_not_raised a h w e)
  | raised e2 => exact hr
  | undefined => simp [Run.andThen] at hr

/-- A delegated conversion followed by `create_copy` returns only when both did. -/
theorem andThen_create_copy_value {σ : Type} (r : Run σ ModelPtr) (h : Handle) (p : ModelPtr)
    (w2 : World σ)
    (hr : (r.andThen fun raw w1 => FrontEnd.create_copy raw h w1) = (Outcome.value p, w2)) :
    ∃ raw w1, r = (Outcome.value raw, w1) ∧
      FrontEnd.create_copy raw h w1 = (Outcome.value p, w2) := by
  rcases r with ⟨o, w⟩
  cases o with
  | value a => exact ⟨a, w, rfl, hr⟩
  | raised e2 => simp [Run.andThen] at hr
  | undefined => simp [Run.andThen] at hr

/-- The shape every conversion entry point has: presence check, delegated call, then
`create_copy` with the proxy's handle. Attached, and with the delegated call returning
`raw`, the result is `create_copy` of `raw`. -/
theorem delegate_then_copy {σ : Type} (I : Implementation σ) (name : String) (h : Handle)
    (call : Implementation σ → Run σ ModelPtr) (w w1 : World σ) (raw : ModelPtr)
    (hcall : call I = (Outcome.value raw, w1)) :
    (FRONT_END_CHECK_IMPLEMENTED (some I) name w fun m_actual =>
      (call m_actual).andThen fun r w1 => FrontEnd.create_copy r h w1) =
      FrontEnd.create_copy raw h w1 := by
  rw [check_implemented_some, hcall]
  rfl

/-- What a call that equals `create_copy` of a valid raw graph leaves behind: one new
object at the first free address, with the raw graph's metadata map and the handle. -/
theorem transplant_of_eq {σ : Type} (entry : Run σ ModelPtr) (raw : ModelPtr) (h : Handle)
    (w1 : World σ) (g : Model) (he : entry = FrontEnd.create_copy raw h w1)
    (hg : w1.models[raw]? = some g) :
    ∃ copy, entry.1 = Outcome.value w1.models.length ∧
      entry.2.models = w1.models ++ [copy] ∧
      copy.get_rt_info = g.get_rt_info ∧
      copy.m_shared_object = some h := by
  rw [he, create_copy_eq w1 raw h g hg]
  exact ⟨_, rfl, rfl, rfl, rfl⟩

/-- C2. With an implementation `I` attached, each of `convert`, `convert_partially` and
`decode` returns exactly `create_copy`, applied once with the proxy's own handle, of the
graph that the matching capability of `I` produced for the concrete input model of `m`.
In particular, when that raw graph is a valid object, the returned graph is the one
object added to the model store, has the raw graph's metadata map and retains the
proxy's handle. -/
theorem C2_conversions_transplant {σ : Type} (fe : FrontEnd σ) (I : Implementation σ)
    (hI : fe.m_actual = some I) (m : InputModel) (w : World σ) :
    (∀ raw w1, I.convert m.m_actual w = (Outcome.value raw, w1) →
      fe.convert m w = FrontEnd.create_copy raw fe.m_shared_object w1 ∧
      ∀ g, w1.models[raw]? = some g →
        ∃ copy, (fe.convert m w).1 = Outcome.value w1.models.length ∧
          (fe.convert m w).2.models = w1.models ++ [copy] ∧
          copy.get_rt_info = g.get_rt_info ∧
          copy.m_shared_object = some fe.m_shared_object) ∧
    (∀ raw w1, I.convert_partially m.m_actual w = (Outcome.value raw, w1) →
      fe.convert_partially m w = FrontEnd.create_copy raw fe.m_shared_object w1 ∧
      ∀ g, w1.models[raw]? = some g →
        ∃ copy, (fe.convert_partially m w).1 = Outcome.value w1.models.length ∧
          (fe.convert_partially m w).2.models = w1.models ++ [copy] ∧
          copy.get_rt_info = g.get_rt_info ∧
          copy.m_shared_object = some fe.m_shared_object) ∧
    (∀ raw w1, I.decode m.m_actual w = (Outcome.value raw, w1) →
      fe.decode m w = FrontEnd.create_copy raw fe.m_shared_object w1 ∧
      ∀ g, w1.models[raw]? = some g →
        ∃ copy, (fe.decode m w).1 = Outcome.value w1.models.length ∧
          (fe.decode m w).2.models = w1.models ++ [copy] ∧
          copy.get_rt_info = g.get_rt_info ∧
          copy.m_shared_object = some fe.m_shared_object) := by
  refine ⟨?_, ?_, ?_⟩
  · intro raw w1 h
    have he : fe.convert m w = FrontEnd.create_copy raw fe.m_shared_object w1 := by
      unfold FrontEnd.convert
      rw [hI]
      exact delegate_then_copy I _ _ (fun i => i.convert m.m_actual w) w w1 raw h
    exact ⟨he, fun g hg => transplant_of_eq _ raw _ w1 g he hg⟩
  · intro raw w1 h
    have he : fe.convert_partially m w = FrontEnd.create_copy raw fe.m_shared_object w1 := by
      unfold FrontEnd.convert_partially
      rw [hI]
      exact delegate_then_copy I _ _ (fun i => i.convert_partially m.m_actual w) w w1 raw h
    exact ⟨he, fun g hg => transplant_of_eq _ raw _ w1 g he hg⟩
  · intro raw w1 h
    have he : fe.decode m w = FrontEnd.create_copy raw fe.m_shared_object w1 := by
      unfold FrontEnd.decode
      rw [hI]
      exact delegate_then_copy I _ _ (fun i => i.decode m.m_actual w) w w1 raw h
    exact ⟨he, fun g hg => transplant_of_eq _ raw _ w1 g he hg⟩

/-- C2 at the sample proxy: each conversion of the sample input model is `create_copy`,
with the proxy's handle 5, of the graph the sample implementation allocated at address 1;
the returned graph sits at address 2 and carries the raw graph's metadata map. -/
theorem C2_conversions_transplant_witness :
    attachedProxy.m_actual = some sampleImplementation ∧
    sampleImplementation.convert 3 sampleWorld =
      (Outcome.value 1, (sampleImplementation.convert 3 sampleWorld).2) ∧
    (sampleImplementation.convert 3 sampleWorld).2.models[1]? = some sampleModel ∧
    attachedProxy.convert sampleInputModel sampleWorld =
      FrontEnd.create_copy 1 5 (sampleImplementation.convert 3 sampleWorld).2 ∧
    attachedProxy.convert_partially sampleInputModel sampleWorld =
      FrontEnd.create_copy 1 5 (sampleImplementation.convert_partially 3 sampleWorld).2 ∧
    attachedProxy.decode sampleInputModel sampleWorld =
      FrontEnd.create_copy 1 5 (sampleImplementation.decode 3 sampleWorld).2 ∧
    (∃ copy, (attachedProxy.convert sampleInputModel sampleWorld).1 = Outcome.value 2 ∧
      (attachedProxy.convert sampleInputModel sampleWorld).2.models =
        [sampleModel, sampleModel] ++ [copy] ∧
      copy.get_rt_info = [("framework", "onnx"), ("version", "7")] ∧
      copy.m_shared_object = some 5) :=
  ⟨rfl, rfl, rfl,
    ((C2_conversions_transplant attachedProxy sampleImplementation rfl sampleInputModel
      sampleWorld).1 1 _ rfl).1,
    ((C2_conversions_transplant attachedProxy sampleImplementation rfl sampleInputModel
      sampleWorld).2.1 1 _ rfl).1,
    ((C2_conversions_transplant attachedProxy sampleImplementation rfl sampleInputModel
      sampleWorld).2.2 1 _ rfl).1,
    ((C2_conversions_transplant attachedProxy sampleImplementation rfl sampleInputModel
      sampleWorld).1 1 _ rfl).2 sampleModel rfl⟩

/-- C3, as stated, fails: on the proxy without implementation, `load_impl` of the empty
input list throws `NotImplemented` naming `load_impl`, which is not `NotImplemented`
naming `load`. -/
theorem C3_load_name_counterexample :
    (emptyProxy.load_impl [] sampleWorld).1 =
        Outcome.raised (Failure.NotImplemented "load_impl") ∧
      (emptyProxy.load_impl [] sampleWorld).1 ≠
        Outcome.raised (Failure.NotImplemented "load") := by
  constructor
  · rfl
  · simp [FrontEnd.load_impl, emptyProxy, FRONT_END_CHECK_IMPLEMENTED]

/-- C3, amended. For every proxy with no implementation attached and every input list,
`load_impl` throws `NotImplemented` naming the operation `load_impl`, leaves the world as
it was and returns no input model proxy. -/
theorem C3_load_unattached {σ : Type} (fe : FrontEnd σ) (hfe : fe.m_actual = none)
    (variants : List Any) (w : World σ) :
    fe.load_impl variants w = (Outcome.raised (Failure.NotImplemented "load_impl"), w) ∧
      ∀ im : InputModel, (fe.load_impl variants w).1 ≠ Outcome.value im := by
  have h : fe.load_impl variants w =
      (Outcome.raised (Failure.NotImplemented "load_impl"), w) := by
    unfold FrontEnd.load_impl
    rw [hfe]
    rfl
  refine ⟨h, ?_⟩
  intro im
  rw [h]
  simp

/-- C3, amended, at the proxy without implementation and the empty input list. -/
theorem C3_load_unattached_witness :
    emptyProxy.m_actual = none ∧
    emptyProxy.load_impl [] sampleWorld =
      (Outcome.raised (Failure.NotImplemented "load_impl"), sampleWorld) ∧
      ∀ im : InputModel, (emptyProxy.load_impl [] sampleWorld).1 ≠ Outcome.value im :=
  ⟨rfl, C3_load_unattached emptyProxy rfl [] sampleWorld⟩

/-- C4. Without an implementation attached, `convert` (on an input model and in place on
a graph), `convert_partially`, `decode` and `normalize` each throw `NotImplemented`
naming that operation and change nothing. Conversely, whenever one of them throws
`NotImplemented`, either no implementation is attached or the attached implementation's
matching capability threw that very error on the same arguments. -/
theorem C4_not_implemented {σ : Type} (fe : FrontEnd σ) (m : InputModel) (g : ModelPtr)
    (w : World σ) :
    (fe.m_actual = none →
      fe.convert m w = (Outcome.raised (Failure.NotImplemented "convert"), w) ∧
      fe.convert_model g w = (Outcome.raised (Failure.NotImplemented "convert"), w) ∧
      fe.convert_partially m w =
        (Outcome.raised (Failure.NotImplemented "convert_partially"), w) ∧
      fe.decode m w = (Outcome.raised (Failure.NotImplemented "decode"), w) ∧
      fe.normalize g w = (Outcome.raised (Failure.NotImplemented "normalize"), w)) ∧
    (∀ op, (fe.convert m w).1 = Outcome.raised (Failure.NotImplemented op) →
      fe.m_actual = none ∨ ∃ I, fe.m_actual = some I ∧
        (I.convert m.m_actual w).1 = Outcome.raised (Failure.NotImplemented op)) ∧
    (∀ op, (fe.convert_model g w).1 = Outcome.raised (Failure.NotImplemented op) →
      fe.m_actual = none ∨ ∃ I, fe.m_actual = some I ∧
        (I.convert_model g w).1 = Outcome.raised (Failure.NotImplemented op)) ∧
    (∀ op, (fe.convert_partially m w).1 = Outcome.raised (Failure.NotImplemented op) →
      fe.m_actual = none ∨ ∃ I, fe.m_actual = some I ∧
        (I.convert_partially m.m_actual w).1 = Outcome.raised (Failure.NotImplemented op)) ∧
    (∀ op, (fe.decode m w).1 = Outcome.raised (Failure.NotImplemented op) →
      fe.m_actual = none ∨ ∃ I, fe.m_actual = some I ∧
        (I.decode m.m_actual w).1 = Outcome.raised (Failure.NotImplemented op)) ∧
    (∀ op, (fe.normalize g w).1 = Outcome.raised (Failure.NotImplemented op) →
      fe.m_actual = none ∨ ∃ I, fe.m_actual = some I ∧
        (I.normalize g w).1 = Outcome.raised (Failure.NotImplemented op)) := by
  refine ⟨?_, ?_, ?_, ?_, ?_, ?_⟩
  · intro hfe
    unfold FrontEnd.convert FrontEnd.convert_model FrontEnd.convert_partially
      FrontEnd.decode FrontEnd.normalize
    rw [hfe]
    exact ⟨rfl, rfl, rfl, rfl, rfl⟩
  · intro op h
    cases hI : fe.m_actual with
    | none => exact Or.inl rfl
    | some I =>
      refine Or.inr ⟨I, rfl, ?_⟩
      unfold FrontEnd.convert at h
      rw [hI, check_implemented_some] at h
      exact andThen_create_copy_raised _ _ _ h
  · intro op h
    cases hI : fe.m_actual with
    | none => exact Or.inl rfl
    | some I =>
      refine Or.inr ⟨I, rfl, ?_⟩
      unfold FrontEnd.convert_model at h
      rw [hI, check_implemented_some] at h
      exact h
  · intro op h
    cases hI : fe.m_actual with
    | none => exact Or.inl rfl
    | some I =>
      refine Or.inr ⟨I, rfl, ?_⟩
      unfold FrontEnd.convert_partially at h
      rw [hI, check_implemented_some] at h
      exact andThen_create_copy_raised _ _ _ h
  · intro op h
    cases hI : fe.m_actual with
    | none => exact Or.inl rfl
    | some I =>
      refine Or.inr ⟨I, rfl, ?_⟩
      unfold FrontEnd.decode at h
      rw [hI, check_implemented_some] at h
      exact andThen_create_copy_raised _ _ _ h
  · intro op h
    cases hI : fe.m_actual with
    | none => exact Or.inl rfl
    | some I =>
      refine Or.inr ⟨I, rfl, ?_⟩
      unfold FrontEnd.normalize at h
      rw [hI, check_implemented_some] at h
      exact h

/-- C4 at the proxy without implementation (every operation throws `NotImplemented` with
its own name) and at the proxy whose implementation lacks `decode` (the error is the
implementation's own). -/
theorem C4_not_implemented_witness :
    emptyProxy.m_actual = none ∧
    (emptyProxy.convert sampleInputModel sampleWorld =
        (Outcome.raised (Failure.NotImplemented "convert"), sampleWorld) ∧
      emptyProxy.convert_model 0 sampleWorld =
        (Outcome.raised (Failure.NotImplemented "convert"), sampleWorld) ∧
      emptyProxy.convert_partially sampleInputModel sampleWorld =
        (Outcome.raised (Failure.NotImplemented "convert_partially"), sampleWorld) ∧
      emptyProxy.decode sampleInputModel sampleWorld =
        (Outcome.raised (Failure.NotImplemented "decode"), sampleWorld) ∧
      emptyProxy.normalize 0 sampleWorld =
        (Outcome.raised (Failure.NotImplemented "normalize"), sampleWorld)) ∧
    (failingProxy.decode sampleInputModel sampleWorld).1 =
      Outcome.raised (Failure.NotImplemented "decode") ∧
    (failingProxy.m_actual = none ∨ ∃ I, failingProxy.m_actual = some I ∧
      (I.decode sampleInputModel.m_actual sampleWorld).1 =
        Outcome.raised (Failure.NotImplemented "decode")) :=
  ⟨rfl, (C4_not_implemented emptyProxy sampleInputModel 0 sampleWorld).1 rfl, rfl,
    (C4_not_implemented failingProxy sampleInputModel 0 sampleWorld).2.2.2.2.1 "decode" rfl⟩

/-- C5. `get_name` returns the empty string on a proxy without implementation and
otherwise is exactly the attached implementation's `get_name`; `supported_impl` returns
`false` on a proxy without implementation and otherwise is exactly the attached
implementation's answer for the same inputs. On a proxy without implementation both
return normally and change nothing. -/
theorem C5_name_and_probe {σ : Type} (fe : FrontEnd σ) (variants : List Any) (w : World σ) :
    (fe.m_actual = none →
      fe.get_name w = (Outcome.value "", w) ∧
      fe.supported_impl variants w = (Outcome.value false, w) ∧
      (∀ e, (fe.get_name w).1 ≠ Outcome.raised e) ∧
      (∀ e, (fe.supported_impl variants w).1 ≠ Outcome.raised e)) ∧
    (∀ I, fe.m_actual = some I →
      fe.get_name w = I.get_name w ∧
      fe.supported_impl variants w = I.supported_impl variants w) := by
  constructor
  · intro hfe
    unfold FrontEnd.get_name FrontEnd.supported_impl
    rw [hfe]
    exact ⟨rfl, rfl, fun e => by simp, fun e => by simp⟩
  · intro I hI
    unfold FrontEnd.get_name FrontEnd.supported_impl
    rw [hI]
    exact ⟨rfl, rfl⟩

/-- C5 at the proxy without implementation and at the sample proxy. -/
theorem C5_name_and_probe_witness :
    emptyProxy.m_actual = none ∧
    emptyProxy.get_name sampleWorld = (Outcome.value "", sampleWorld) ∧
    emptyProxy.supported_impl [] sampleWorld = (Outcome.value false, sampleWorld) ∧
    attachedProxy.m_actual = some sampleImplementation ∧
    attachedProxy.get_name sampleWorld = sampleImplementation.get_name sampleWorld ∧
    attachedProxy.supported_impl ["model.onnx"] sampleWorld =
      sampleImplementation.supported_impl ["model.onnx"] sampleWorld ∧
    (attachedProxy.get_name sampleWorld).1 = Outcome.value "onnx" ∧
    (attachedProxy.supported_impl ["model.onnx"] sampleWorld).1 = Outcome.value true :=
  ⟨rfl, ((C5_name_and_probe emptyProxy [] sampleWorld).1 rfl).1,
    ((C5_name_and_probe emptyProxy [] sampleWorld).1 rfl).2.1, rfl,
    ((C5_name_and_probe attachedProxy ["model.onnx"] sampleWorld).2 sampleImplementation rfl).1,
    ((C5_name_and_probe attachedProxy ["model.onnx"] sampleWorld).2 sampleImplementation rfl).2,
    rfl, rfl⟩

/-- C6. With an implementation `I` attached, whenever `I` loads a concrete input model
for the given inputs, `load_impl` returns an input model proxy whose concrete input model
is exactly that one and whose plugin handle is the one the frontend proxy holds; the
world is the one `I` left behind. -/
theorem C6_load_attached {σ : Type} (fe : FrontEnd σ) (I : Implementation σ)
    (hI : fe.m_actual = some I) (variants : List Any) (w w1 : World σ)
    (actual : InputModelPtr) (hload : I.load_impl variants w = (Outcome.value actual, w1)) :
    ∃ im : InputModel, fe.load_impl variants w = (Outcome.value im, w1) ∧
      im.m_actual = actual ∧ im.m_shared_object = fe.m_shared_object := by
  refine ⟨{ m_shared_object := fe.m_shared_object, m_actual := actual }, ?_, rfl, rfl⟩
  unfold FrontEnd.load_impl
  rw [hI, check_implemented_some, hload]
  rfl

/-- C6 at the sample proxy, loading from two inputs. -/
theorem C6_load_attached_witness :
    attachedProxy.m_actual = some sampleImplementation ∧
    sampleImplementation.load_impl ["model.onnx", "weights.bin"] sampleWorld =
      (Outcome.value 2, sampleWorld) ∧
    ∃ im : InputModel,
      attachedProxy.load_impl ["model.onnx", "weights.bin"] sampleWorld =
        (Outcome.value im, sampleWorld) ∧
      im.m_actual = 2 ∧ im.m_shared_object = attachedProxy.m_shared_object :=
  ⟨rfl, rfl, C6_load_attached attachedProxy sampleImplementation rfl
    ["model.onnx", "weights.bin"] sampleWorld sampleWorld 2 rfl⟩

/-! ## Extensions -/

/-- Recording touches only the list of the given handle, at whose end the extension is
put. -/
theorem add_extension_to_shared_data_spec (obj : Handle) (ext : Extension)
    (shared : SharedData) :
    add_extension_to_shared_data obj ext shared obj = shared obj ++ [ext] ∧
      ∀ other, other ≠ obj → add_extension_to_shared_data obj ext shared other = shared other := by
  constructor
  · simp [add_extension_to_shared_data]
  · intro other hne
    simp [add_extension_to_shared_data, hne]

/-- C7, as stated, fails: on the proxy without implementation `add_extension` of
extension 7 returns normally, and 7 is not in the list recorded for the proxy's handle
afterwards, which is the list `[4]` it was before. -/
theorem C7_unattached_not_recorded_counterexample :
    emptyProxy.m_actual = none ∧
      (emptyProxy.add_extension 7 sampleShared sampleWorld).1.1 = Outcome.value () ∧
      (emptyProxy.add_extension 7 sampleShared sampleWorld).2 emptyProxy.m_shared_object
        = [4] ∧
      7 ∉ (emptyProxy.add_extension 7 sampleShared sampleWorld).2
        emptyProxy.m_shared_object := by
  refine ⟨rfl, rfl, rfl, ?_⟩
  simp [FrontEnd.add_extension, emptyProxy, sampleShared]

/-- C7, amended. With an implementation `I` attached, `add_extension` first records the
extension against the proxy's shared state and then delegates it to the `add_extension`
of `I`: the finished call is exactly the delegated call, and afterwards the extension is
in the list recorded for the proxy's handle, at its end, whether the delegated call
returned or threw, while the lists of all other handles are as before. Without an
implementation, `add_extension` returns normally and changes nothing: the extension is
neither recorded nor delegated. -/
theorem C7_add_extension {σ : Type} (fe : FrontEnd σ) (E : Extension) (shared : SharedData)
    (w : World σ) :
    (∀ I, fe.m_actual = some I →
      (fe.add_extension E shared w).1 = I.add_extension E w ∧
      (fe.add_extension E shared w).2 fe.m_shared_object = shared fe.m_shared_object ++ [E] ∧
      E ∈ (fe.add_extension E shared w).2 fe.m_shared_object ∧
      (∀ before, before ∈ shared fe.m_shared_object →
        before ∈ (fe.add_extension E shared w).2 fe.m_shared_object) ∧
      (∀ other, other ≠ fe.m_shared_object →
        (fe.add_extension E shared w).2 other = shared other)) ∧
    (fe.m_actual = none → fe.add_extension E shared w = ((Outcome.value (), w), shared)) := by
  constructor
  · intro I hI
    have hcall : fe.add_extension E shared w =
        (I.add_extension E w, add_extension_to_shared_data fe.m_shared_object E shared) := by
      unfold FrontEnd.add_extension
      rw [hI]
    have hrec := add_extension_to_shared_data_spec fe.m_shared_object E shared
    rw [hcall]
    refine ⟨rfl, hrec.1, ?_, ?_, hrec.2⟩
    · show E ∈ add_extension_to_shared_data fe.m_shared_object E shared fe.m_shared_object
      rw [hrec.1]
      simp
    · intro before hb
      show before ∈ add_extension_to_shared_data fe.m_shared_object E shared fe.m_shared_object
      rw [hrec.1]
      exact List.mem_append_left _ hb
  · intro hfe
    unfold FrontEnd.add_extension
    rw [hfe]

/-- C7, amended, at three proxies that share handle 5, for which extension 4 is already
recorded: the sample proxy records extension 7 and its implementation counts it; the
proxy whose implementation rejects extensions has recorded 7 all the same when the
rejection is thrown; the proxy without implementation changes nothing. -/
theorem C7_add_extension_witness :
    attachedProxy.m_actual = some sampleImplementation ∧
    ((attachedProxy.add_extension 7 sampleShared sampleWorld).1 =
        sampleImplementation.add_extension 7 sampleWorld ∧
      (attachedProxy.add_extension 7 sampleShared sampleWorld).2 attachedProxy.m_shared_object =
        sampleShared attachedProxy.m_shared_object ++ [7] ∧
      7 ∈ (attachedProxy.add_extension 7 sampleShared sampleWorld).2
        attachedProxy.m_shared_object ∧
      (∀ before, before ∈ sampleShared attachedProxy.m_shared_object →
        before ∈ (attachedProxy.add_extension 7 sampleShared sampleWorld).2
          attachedProxy.m_shared_object) ∧
      (∀ other, other ≠ attachedProxy.m_shared_object →
        (attachedProxy.add_extension 7 sampleShared sampleWorld).2 other =
          sampleShared other)) ∧
    (attachedProxy.add_extension 7 sampleShared sampleWorld).1.1 = Outcome.value () ∧
    (attachedProxy.add_extension 7 sampleShared sampleWorld).2 5 = [4, 7] ∧
    (attachedProxy.add_extension 7 sampleShared sampleWorld).1.2.impl = 100 ∧
    failingProxy.m_actual = some failingImplementation ∧
    (failingProxy.add_extension 7 sampleShared sampleWorld).1.1 =
      Outcome.raised (Failure.GeneralFailure "unsupported") ∧
    7 ∈ (failingProxy.add_extension 7 sampleShared sampleWorld).2 failingProxy.m_shared_object ∧
    (failingProxy.add_extension 7 sampleShared sampleWorld).2 5 = [4, 7] ∧
    emptyProxy.m_actual = none ∧
    emptyProxy.add_extension 7 sampleShared sampleWorld =
      ((Outcome.value (), sampleWorld), sampleShared) :=
  ⟨rfl, (C7_add_extension attachedProxy 7 sampleShared sampleWorld).1 sampleImplementation rfl,
    rfl, rfl, rfl, rfl, rfl,
    ((C7_add_extension failingProxy 7 sampleShared sampleWorld).1 failingImplementation rfl).2.2.1,
    rfl, rfl, (C7_add_extension emptyProxy 7 sampleShared sampleWorld).2 rfl⟩

/-! ## Two transplants of one graph -/

/-- Mutating one cell of the model store changes that cell as asked. -/
theorem mutate_model_same {σ : Type} (w : World σ) (p : ModelPtr) (change : Model → Model)
    (m : Model) (hp : w.models[p]? = some m) :
    (w.mutate_model p change).models[p]? = some (change m) := by
  unfold World.mutate_model
  rw [hp]
  simp [List.getElem?_set_self (lt_of_lookup hp)]

/-- Mutating one cell of the model store leaves every other cell as it was. -/
theorem mutate_model_other {σ : Type} (w : World σ) (p q : ModelPtr)
    (change : Model → Model) (hne : p ≠ q) :
    (w.mutate_model p change).models[q]? = w.models[q]? := by
  unfold World.mutate_model
  cases hp : w.models[p]? with
  | none => rfl
  | some m => simp [List.getElem?_set_ne hne]

/-- Mutating a model object touches no node object. -/
theorem mutate_model_nodes {σ : Type} (w : World σ) (p : ModelPtr) (change : Model → Model) :
    (w.mutate_model p change).nodes = w.nodes := by
  unfold World.mutate_model
  cases w.models[p]? <;> rfl

/-- Mutating a model object leaves what is read through any other pointer as it was. -/
theorem mutate_model_observe_other {σ : Type} (w : World σ) (p q : ModelPtr)
    (change : Model → Model) (hne : p ≠ q) :
    (w.mutate_model p change).observe q = w.observe q := by
  unfold World.observe
  rw [mutate_model_other w p q change hne, mutate_model_nodes]

/-- A transplant of a valid source puts one new object at the first free address and
touches no node object; the new object agrees with the source on results, sinks,
parameters, friendly name and metadata map. -/
theorem create_copy_fresh {σ : Type} (w : World σ) (g : ModelPtr) (h : Handle) (src : Model)
    (hg : w.models[g]? = some src) :
    ∃ copy : Model,
      FrontEnd.create_copy g h w =
        (Outcome.value w.models.length, { w with models := w.models ++ [copy] }) ∧
      copy.get_results = src.get_results ∧
      copy.get_sinks = src.get_sinks ∧
      copy.get_parameters = src.get_parameters ∧
      copy.get_friendly_name = src.get_friendly_name ∧
      copy.get_rt_info = src.get_rt_info :=
  ⟨_, create_copy_eq w g h src hg, rfl, rfl, rfl, rfl, rfl⟩

/-- C8, as stated, fails. After two transplants of the sample graph, node 1 is the first
parameter of the copy at address 1, of the copy at address 2 and of the source at address
0 alike; mutating that node through the first copy changes what is read through the
second copy and through the source. -/
theorem C8_shared_node_counterexample :
    (twiceCopiedWorld.models[1]?).map Model.get_parameters = some [1, 2] ∧
      (twiceCopiedWorld.mutate_node 1 (fun _ => "f32[8,3]")).observe 2 ≠
        twiceCopiedWorld.observe 2 ∧
      (twiceCopiedWorld.mutate_node 1 (fun _ => "f32[8,3]")).observe 0 ≠
        twiceCopiedWorld.observe 0 ∧
      ((twiceCopiedWorld.mutate_node 1 (fun _ => "f32[8,3]")).observe 2).map
        Observation.parameters = some ["f32[8,3]", "f32[1,3]"] := by
  decide

/-- C8, amended. Two applications of `create_copy` to the same valid source graph `g`
with handle `h` yield two model objects at addresses different from each other and from
`g`; both have the metadata map, the friendly name and the parameter, result and sink
sequences of the source (hence of each other), and no node object is created or changed:
the sequences of all three designate the same nodes. Whatever mutation is then applied in
place to the model object of one copy (a change of its friendly name, an assignment to a
metadata entry, a change of its node lists, or any other change of that object), what is
read through the other copy and through the source `g` stays as it was. A mutation of a
node object changes none of the three model objects. -/
theorem C8_two_copies_own_attributes {σ : Type} (w : World σ) (g : ModelPtr) (h : Handle)
    (src : Model) (hg : w.models[g]? = some src) :
    ∃ (p1 p2 : ModelPtr) (w1 w2 : World σ) (c1 c2 : Model),
      FrontEnd.create_copy g h w = (Outcome.value p1, w1) ∧
      FrontEnd.create_copy g h w1 = (Outcome.value p2, w2) ∧
      p1 ≠ p2 ∧ p1 ≠ g ∧ p2 ≠ g ∧
      w2.models[p1]? = some c1 ∧ w2.models[p2]? = some c2 ∧ w2.models[g]? = some src ∧
      c1.get_rt_info = c2.get_rt_info ∧
      c1.get_friendly_name = c2.get_friendly_name ∧
      c1.get_parameters = c2.get_parameters ∧
      c1.get_results = c2.get_results ∧
      c1.get_sinks = c2.get_sinks ∧
      c1.get_rt_info = src.get_rt_info ∧
      c1.get_friendly_name = src.get_friendly_name ∧
      c1.get_parameters = src.get_parameters ∧
      c1.get_results = src.get_results ∧
      c1.get_sinks = src.get_sinks ∧
      w2.nodes = w.nodes ∧
      (∀ change : Model → Model,
        (w2.mutate_model p1 change).models[p1]? = some (change c1) ∧
        (w2.mutate_model p1 change).models[p2]? = some c2 ∧
        (w2.mutate_model p1 change).models[g]? = some src ∧
        (w2.mutate_model p1 change).observe p2 = w2.observe p2 ∧
        (w2.mutate_model p1 change).observe g = w2.observe g) ∧
      (∀ change : Model → Model,
        (w2.mutate_model p2 change).models[p2]? = some (change c2) ∧
        (w2.mutate_model p2 change).models[p1]? = some c1 ∧
        (w2.mutate_model p2 change).models[g]? = some src ∧
        (w2.mutate_model p2 change).observe p1 = w2.observe p1 ∧
        (w2.mutate_model p2 change).observe g = w2.observe g) ∧
      (∀ (n : NodeRef) (change : NodeState → NodeState),
        (w2.mutate_node n change).models = w2.models) := by
  have hlt : g < w.models.length := lt_of_lookup hg
  obtain ⟨c1, e1, hr1, hs1, hp1, hn1, hi1⟩ := create_copy_fresh w g h src hg
  have hg1 : ({ w with models := w.models ++ [c1] } : World σ).models[g]? = some src :=
    lookup_append_left hg _
  obtain ⟨c2, e2, hr2, hs2, hp2, hn2, hi2⟩ := create_copy_fresh _ g h src hg1
  have hne12 : w.models.length ≠ (w.models ++ [c1]).length := by simp
  have hne1g : w.models.length ≠ g := Nat.ne_of_gt hlt
  have hlen : (w.models ++ [c1]).length = w.models.length + 1 := by simp
  have hne2g : (w.models ++ [c1]).length ≠ g := by
    rw [hlen]
    exact Nat.ne_of_gt (Nat.lt_succ_of_lt hlt)
  have hc1 : ((w.models ++ [c1]) ++ [c2])[w.models.length]? = some c1 :=
    lookup_append_left (lookup_append_new _ _) _
  have hc2 : ((w.models ++ [c1]) ++ [c2])[(w.models ++ [c1]).length]? = some c2 :=
    lookup_append_new _ _
  have hsrc : ((w.models ++ [c1]) ++ [c2])[g]? = some src := lookup_append_left hg1 _
  refine ⟨_, _, _, _, c1, c2, e1, e2, hne12, hne1g, hne2g, hc1, hc2, hsrc,
    hi1.trans hi2.symm, hn1.trans hn2.symm, hp1.trans hp2.symm, hr1.trans hr2.symm,
    hs1.trans hs2.symm, hi1, hn1, hp1, hr1, hs1, rfl, ?_, ?_, ?_⟩
  · intro change
    refine ⟨mutate_model_same _ _ change _ hc1, ?_, ?_,
      mutate_model_observe_other _ _ _ change hne12,
      mutate_model_observe_other _ _ _ change hne1g⟩
    · rw [mutate_model_other _ _ _ change hne12]
      exact hc2
    · rw [mutate_model_other _ _ _ change hne1g]
      exact hsrc
  · intro change
    refine ⟨mutate_model_same _ _ change _ hc2, ?_, ?_,
      mutate_model_observe_other _ _ _ change hne12.symm,
      mutate_model_observe_other _ _ _ change hne2g⟩
    · rw [mutate_model_other _ _ _ change hne12.symm]
      exact hc1
    · rw [mutate_model_other _ _ _ change hne2g]
      exact hsrc
  · intro n change
    rfl

/-- C8, amended, at the sample world: the graph at address 0 is copied twice with
handle 9. -/
theorem C8_two_copies_own_attributes_witness :
    sampleWorld.models[0]? = some sampleModel ∧
    ∃ (p1 p2 : ModelPtr) (w1 w2 : World Nat) (c1 c2 : Model),
      FrontEnd.create_copy 0 9 sampleWorld = (Outcome.value p1, w1) ∧
      FrontEnd.create_copy 0 9 w1 = (Outcome.value p2, w2) ∧
      p1 ≠ p2 ∧ p1 ≠ 0 ∧ p2 ≠ 0 ∧
      w2.models[p1]? = some c1 ∧ w2.models[p2]? = some c2 ∧
      w2.models[0]? = some sampleModel ∧
      c1.get_rt_info = c2.get_rt_info ∧
      c1.get_friendly_name = c2.get_friendly_name ∧
      c1.get_parameters = c2.get_parameters ∧
      c1.get_results = c2.get_results ∧
      c1.get_sinks = c2.get_sinks ∧
      c1.get_rt_info = sampleModel.get_rt_info ∧
      c1.get_friendly_name = sampleModel.get_friendly_name ∧
      c1.get_parameters = sampleModel.get_parameters ∧
      c1.get_results = sampleModel.get_results ∧
      c1.get_sinks = sampleModel.get_sinks ∧
      w2.nodes = sampleWorld.nodes ∧
      (∀ change : Model → Model,
        (w2.mutate_model p1 change).models[p1]? = some (change c1) ∧
        (w2.mutate_model p1 change).models[p2]? = some c2 ∧
        (w2.mutate_model p1 change).models[0]? = some sampleModel ∧
        (w2.mutate_model p1 change).observe p2 = w2.observe p2 ∧
        (w2.mutate_model p1 change).observe 0 = w2.observe 0) ∧
      (∀ change : Model → Model,
        (w2.mutate_model p2 change).models[p2]? = some (change c2) ∧
        (w2.mutate_model p2 change).models[p1]? = some c1 ∧
        (w2.mutate_model p2 change).models[0]? = some sampleModel ∧
        (w2.mutate_model p2 change).observe p1 = w2.observe p1 ∧
        (w2.mutate_model p2 change).observe 0 = w2.observe 0) ∧
      (∀ (n : NodeRef) (change : NodeState → NodeState),
        (w2.mutate_node n change).models = w2.models) :=
  ⟨rfl, C8_two_copies_own_attributes sampleWorld 0 9 sampleModel rfl⟩

/-- The sample world after two transplants of the graph at address 0, with the first
copy renamed, one of its metadata entries changed and a new one inserted: the second copy
and the source still read as before. -/
theorem two_copies_example :
    (((twiceCopiedWorld.mutate_model 1 (Model.set_friendly_name "renamed")).mutate_model 1
        (Model.assign_rt_info "batch" "8")).mutate_model 1
        (Model.assign_rt_info "version" "11")).models =
      [sampleModel,
        { sampleModel with
          m_name := "renamed"
          m_rt_info := [("batch", "8"), ("framework", "onnx"), ("version", "11")]
          m_shared_object := some 9 },
        { sampleModel with m_shared_object := some 9 }] ∧
    ((twiceCopiedWorld.mutate_model 1 (Model.set_friendly_name "renamed")).mutate_model 1
        (Model.assign_rt_info "batch" "8")).observe 2 = twiceCopiedWorld.observe 2 ∧
    ((twiceCopiedWorld.mutate_model 1 (Model.set_friendly_name "renamed")).mutate_model 1
        (Model.assign_rt_info "batch" "8")).observe 0 = twiceCopiedWorld.observe 0 := by
  decide

/-! ## Failure of a conversion -/

/-- An attached conversion entry whose delegated call threw rethrows the same error in
the world the implementation left. -/
theorem delegate_raised {σ : Type} (I : Implementation σ) (name : String) (h : Handle)
    (call : Implementation σ → Run σ ModelPtr) (w w1 : World σ) (e : Failure)
    (hcall : call I = (Outcome.raised e, w1)) :
    (FRONT_END_CHECK_IMPLEMENTED (some I) name w fun m_actual =>
      (call m_actual).andThen fun r w1 => FrontEnd.create_copy r h w1) =
      (Outcome.raised e, w1) := by
  rw [check_implemented_some, hcall]
  rfl

/-- An attached conversion entry that returned a graph: the delegated call returned a
valid raw graph, and the returned graph is the complete transplant of it. -/
theorem delegate_value_inv {σ : Type} (I : Implementation σ) (name : String) (h : Handle)
    (call : Implementation σ → Run σ ModelPtr) (w w2 : World σ) (p : ModelPtr)
    (hv : (FRONT_END_CHECK_IMPLEMENTED (some I) name w fun m_actual =>
      (call m_actual).andThen fun r w1 => FrontEnd.create_copy r h w1) =
      (Outcome.value p, w2)) :
    ∃ raw w1 src copy, call I = (Outcome.value raw, w1) ∧ w1.models[raw]? = some src ∧
      FrontEnd.create_copy raw h w1 = (Outcome.value p, w2) ∧
      w2.models[p]? = some copy ∧
      copy.get_results = src.get_results ∧ copy.get_sinks = src.get_sinks ∧
      copy.get_parameters = src.get_parameters ∧ copy.get_variables = src.get_variables ∧
      copy.get_friendly_name = src.get_friendly_name ∧
      copy.get_rt_info = src.get_rt_info ∧ copy.m_shared_object = some h := by
  rw [check_implemented_some] at hv
  obtain ⟨raw, w1, hcall, hcopy⟩ := andThen_create_copy_value _ _ _ _ hv
  obtain ⟨src, hsrc⟩ := create_copy_value_inv _ _ _ _ _ hcopy
  obtain ⟨copy, heq, hr, hs, hpa, hn, hi⟩ := create_copy_fresh w1 raw h src hsrc
  have hv2 := create_copy_eq w1 raw h src hsrc
  have hso : copy.m_shared_object = some h ∧ copy.get_variables = src.get_variables := by
    have := heq.symm.trans hv2
    simp only [Prod.mk.injEq, true_and, World.mk.injEq, List.append_cancel_left_eq,
      List.cons.injEq, and_true] at this
    rw [this]
    exact ⟨rfl, rfl⟩
  rw [heq] at hcopy
  have hp : w1.models.length = p := by
    have := congrArg Prod.fst hcopy
    simpa using this
  have hw : w2 = { w1 with models := w1.models ++ [copy] } := (congrArg Prod.snd hcopy).symm
  refine ⟨raw, w1, src, copy, hcall, hsrc, ?_, ?_, hr, hs, hpa, hso.2, hn, hi, hso.1⟩
  · rw [heq, hp, hw]
  · rw [hw, ← hp]
    exact lookup_append_new _ _

/-- C9. With an implementation `I` attached: if the matching capability of `I` throws an
error `e`, then `convert` (resp. `convert_partially`, `decode`) throws exactly `e`, in
the world `I` left behind, and returns no graph. Whenever one of the three returns a
graph, the capability of `I` had returned a valid raw graph and the returned graph is the
complete transplant of it: all node sequences, the variables, the friendly name and the
metadata map of the raw graph, and the proxy's handle. -/
theorem C9_conversion_errors_transparent {σ : Type} (fe : FrontEnd σ) (I : Implementation σ)
    (hI : fe.m_actual = some I) (m : InputModel) (w : World σ) :
    (∀ e w1, I.convert m.m_actual w = (Outcome.raised e, w1) →
      fe.convert m w = (Outcome.raised e, w1)) ∧
    (∀ e w1, I.convert_partially m.m_actual w = (Outcome.raised e, w1) →
      fe.convert_partially m w = (Outcome.raised e, w1)) ∧
    (∀ e w1, I.decode m.m_actual w = (Outcome.raised e, w1) →
      fe.decode m w = (Outcome.raised e, w1)) ∧
    (∀ p w2, fe.convert m w = (Outcome.value p, w2) →
      ∃ raw w1 src copy, I.convert m.m_actual w = (Outcome.value raw, w1) ∧
        w1.models[raw]? = some src ∧
        FrontEnd.create_copy raw fe.m_shared_object w1 = (Outcome.value p, w2) ∧
        w2.models[p]? = some copy ∧
        copy.get_results = src.get_results ∧ copy.get_sinks = src.get_sinks ∧
        copy.get_parameters = src.get_parameters ∧
        copy.get_variables = src.get_variables ∧
        copy.get_friendly_name = src.get_friendly_name ∧
        copy.get_rt_info = src.get_rt_info ∧
        copy.m_shared_object = some fe.m_shared_object) ∧
    (∀ p w2, fe.convert_partially m w = (Outcome.value p, w2) →
      ∃ raw w1 src copy, I.convert_partially m.m_actual w = (Outcome.value raw, w1) ∧
        w1.models[raw]? = some src ∧
        FrontEnd.create_copy raw fe.m_shared_object w1 = (Outcome.value p, w2) ∧
        w2.models[p]? = some copy ∧
        copy.get_results = src.get_results ∧ copy.get_sinks = src.get_sinks ∧
        copy.get_parameters = src.get_parameters ∧
        copy.get_variables = src.get_variables ∧
        copy.get_friendly_name = src.get_friendly_name ∧
        copy.get_rt_info = src.get_rt_info ∧
        copy.m_shared_object = some fe.m_shared_object) ∧
    (∀ p w2, fe.decode m w = (Outcome.value p, w2) →
      ∃ raw w1 src copy, I.decode m.m_actual w = (Outcome.value raw, w1) ∧
        w1.models[raw]? = some src ∧
        FrontEnd.create_copy raw fe.m_shared_object w1 = (Outcome.value p, w2) ∧
        w2.models[p]? = some copy ∧
        copy.get_results = src.get_results ∧ copy.get_sinks = src.get_sinks ∧
        copy.get_parameters = src.get_parameters ∧
        copy.get_variables = src.get_variables ∧
        copy.get_friendly_name = src.get_friendly_name ∧
        copy.get_rt_info = src.get_rt_info ∧
        copy.m_shared_object = some fe.m_shared_object) := by
  refine ⟨?_, ?_, ?_, ?_, ?_, ?_⟩
  · intro e w1 h
    unfold FrontEnd.convert
    rw [hI]
    exact delegate_raised I _ _ (fun i => i.convert m.m_actual w) w w1 e h
  · intro e w1 h
    unfold FrontEnd.convert_partially
    rw [hI]
    exact delegate_raised I _ _ (fun i => i.convert_partially m.m_actual w) w w1 e h
  · intro e w1 h
    unfold FrontEnd.decode
    rw [hI]
    exact delegate_raised I _ _ (fun i => i.decode m.m_actual w) w w1 e h
  · intro p w2 h
    unfold FrontEnd.convert at h
    rw [hI] at h
    exact delegate_value_inv I _ _ (fun i => i.convert m.m_actual w) w w2 p h
  · intro p w2 h
    unfold FrontEnd.convert_partially at h
    rw [hI] at h
    exact delegate_value_inv I _ _ (fun i => i.convert_partially m.m_actual w) w w2 p h
  · intro p w2 h
    unfold FrontEnd.decode at h
    rw [hI] at h
    exact delegate_value_inv I _ _ (fun i => i.decode m.m_actual w) w w2 p h

/-- C9 at the two sample proxies: the general failure of `convert`, the node failure of
`convert_partially` and the missing `decode` of the second implementation come out
unchanged, and the graph that the first proxy's `convert` returns at address 2 is the
transplant of a graph its implementation returned. -/
theorem C9_conversion_errors_transparent_witness :
    failingProxy.m_actual = some failingImplementation ∧
    failingProxy.convert sampleInputModel sampleWorld =
      (Outcome.raised (Failure.GeneralFailure "bad file"), sampleWorld) ∧
    failingProxy.convert_partially sampleInputModel sampleWorld =
      (Outcome.raised (Failure.OpConversionFailure "Conv_3"),
        (failingImplementation.convert_partially 3 sampleWorld).2) ∧
    failingProxy.decode sampleInputModel sampleWorld =
      (Outcome.raised (Failure.NotImplemented "decode"), sampleWorld) ∧
    attachedProxy.m_actual = some sampleImplementation ∧
    attachedProxy.convert sampleInputModel sampleWorld =
      (Outcome.value 2, (attachedProxy.convert sampleInputModel sampleWorld).2) ∧
    (∃ raw w1 src copy,
      sampleImplementation.convert sampleInputModel.m_actual sampleWorld =
        (Outcome.value raw, w1) ∧
      w1.models[raw]? = some src ∧
      FrontEnd.create_copy raw attachedProxy.m_shared_object w1 =
        (Outcome.value 2, (attachedProxy.convert sampleInputModel sampleWorld).2) ∧
      (attachedProxy.convert sampleInputModel sampleWorld).2.models[2]? = some copy ∧
      copy.get_results = src.get_results ∧ copy.get_sinks = src.get_sinks ∧
      copy.get_parameters = src.get_parameters ∧
      copy.get_variables = src.get_variables ∧
      copy.get_friendly_name = src.get_friendly_name ∧
      copy.get_rt_info = src.get_rt_info ∧
      copy.m_shared_object = some attachedProxy.m_shared_object) :=
  ⟨rfl,
    (C9_conversion_errors_transparent failingProxy failingImplementation rfl
      sampleInputModel sampleWorld).1 _ _ rfl,
    (C9_conversion_errors_transparent failingProxy failingImplementation rfl
      sampleInputModel sampleWorld).2.1 _ _ rfl,
    (C9_conversion_errors_transparent failingProxy failingImplementation rfl
      sampleInputModel sampleWorld).2.2.1 _ _ rfl,
    rfl, rfl,
    (C9_conversion_errors_transparent attachedProxy sampleImplementation rfl
      sampleInputModel sampleWorld).2.2.2.1 2 _ rfl⟩

end ov

namespace pyopenvino

/-! ## The version gate -/

/-- The test `s.find(str) == 0` holds exactly when `s` starts with `str`. -/
theorem find_eq_zero_iff (s str : List Char) : find s str = some 0 ↔ str <+: s := by
  unfold find
  by_cases h : str.isPrefixOf s = true
  · rw [if_pos h]
    exact ⟨fun _ => List.isPrefixOf_iff_prefix.mp h, fun _ => rfl⟩
  · rw [if_neg h]
    have hn : ¬ str <+: s := fun hp => h (List.isPrefixOf_iff_prefix.mpr hp)
    constructor
    · intro hf
      cases s with
      | nil => simp at hf
      | cons c rest =>
        cases hr : find rest str with
        | none => simp [hr] at hf
        | some k => simp [hr] at hf
    · intro hp
      exact absurd hp hn

/-- The assertion lets initialisation go on exactly when its condition holds. -/
theorem OPENVINO_ASSERT_ok_iff (cond : Bool) (message : String) :
    OPENVINO_ASSERT cond message = Except.ok () ↔ cond = true := by
  unfold OPENVINO_ASSERT
  cases cond <;> simp

/-- C10. For every pair of build numbers `p` (the binding's) and `r` (the runtime's),
the compatibility condition holds, and the module initialiser passes its assertion, if
and only if `p` is empty, or `p` starts with `custom_`, or `r` is empty, or `r` starts
with `custom_`, or `p` equals `r`. Hence two non-empty build numbers that differ, neither
starting with `custom_`, make module initialisation fail. -/
theorem C10_version_gate (p r : String) :
    (versions_compatible p r = true ↔
      (p = "" ∨ "custom_".data <+: p.data ∨ r = "" ∨ "custom_".data <+: r.data ∨ p = r)) ∧
    (PYBIND11_MODULE_pyopenvino p r = Except.ok () ↔
      (p = "" ∨ "custom_".data <+: p.data ∨ r = "" ∨ "custom_".data <+: r.data ∨ p = r)) ∧
    (p ≠ "" → ¬ "custom_".data <+: p.data → r ≠ "" → ¬ "custom_".data <+: r.data → p ≠ r →
      ∃ message, PYBIND11_MODULE_pyopenvino p r = Except.error message) := by
  have hvc : versions_compatible p r = true ↔
      (p = "" ∨ "custom_".data <+: p.data ∨ r = "" ∨ "custom_".data <+: r.data ∨ p = r) := by
    unfold versions_compatible get_version
    simp only [Bool.or_eq_true, beq_iff_eq, String.isEmpty_iff, find_eq_zero_iff]
    tauto
  refine ⟨hvc, ?_, ?_⟩
  · unfold PYBIND11_MODULE_pyopenvino
    rw [OPENVINO_ASSERT_ok_iff]
    exact hvc
  · intro h1 h2 h3 h4 h5
    have hfalse : versions_compatible p r = false := by
      cases hb : versions_compatible p r with
      | false => rfl
      | true =>
        rcases hvc.mp hb with h | h | h | h | h
        · exact absurd h h1
        · exact absurd h h2
        · exact absurd h h3
        · exact absurd h h4
        · exact absurd h h5
    unfold PYBIND11_MODULE_pyopenvino OPENVINO_ASSERT
    rw [hfalse]
    exact ⟨_, rfl⟩

/-- C10 for a binding built as `2022.1.0-7019` loaded against a runtime `2022.2.0-7713`:
both are non-empty, neither starts with `custom_`, they differ, and initialisation
fails. -/
theorem C10_version_gate_witness :
    "2022.1.0-7019" ≠ "" ∧ ¬ "custom_".data <+: "2022.1.0-7019".data ∧
    "2022.2.0-7713" ≠ "" ∧ ¬ "custom_".data <+: "2022.2.0-7713".data ∧
    "2022.1.0-7019" ≠ "2022.2.0-7713" ∧
    ∃ message, PYBIND11_MODULE_pyopenvino "2022.1.0-7019" "2022.2.0-7713" =
      Except.error message :=
  ⟨by decide, by decide, by decide, by decide, by decide,
    (C10_version_gate "2022.1.0-7019" "2022.2.0-7713").2.2 (by decide) (by decide)
      (by decide) (by decide) (by decide)⟩

end pyopenvino
